import Mathlib

/-!
Verification of the decorator-chain notification mechanism of this repository.

The embedded source:
- src/06-decorator/code/Notifier.ts : the `Notifier` capability interface,
  the terminal `SimpleNotifier` (its `send` prints the console line
  `    [Send] ${message}`), and the base class `NotifierDecorator`, whose
  constructor merely stores the wrapped successor and performs no validation.
- src/decorator/code (Decorators): `TimestampDecorator.send` builds
  `[${now}] ${message}` and forwards, `UrgentDecorator.send` builds
  `URGENT: ${message.toUpperCase()}` and forwards, `EmojiDecorator.send`
  builds `${this.emoji} ${message}` and forwards; each `getDescription`
  wraps the successor description in its own class name.

The current clock reading used by `TimestampDecorator.send` (in the source,
`new Date().toLocaleString(...)`) is modelled as an explicit string input
`now` threaded through `send`; everything else is a pure function of its
arguments, matching the single-threaded synchronous source.
-/

namespace DecoratorChain

/-- Model of the JavaScript `String.prototype.toUpperCase` as used by
`UrgentDecorator.send`: uppercase every character (ASCII letters map to
their uppercase forms, all other characters are unchanged, which agrees
with JavaScript on the payloads of this repository). -/
def toUpperCase (s : String) : String := ⟨s.data.map Char.toUpper⟩

/-- The local transformation of `TimestampDecorator.send`, which builds
the decorated string `[${now}] ${message}` before forwarding. -/
def timestampTransform (now message : String) : String :=
  "[" ++ now ++ "] " ++ message

/-- The local transformation of `UrgentDecorator.send`, which builds
the decorated string `URGENT: ${message.toUpperCase()}` before forwarding. -/
def urgentTransform (message : String) : String :=
  "URGENT: " ++ toUpperCase message

/-- The local transformation of `EmojiDecorator.send`, which builds
the decorated string `${this.emoji} ${message}` before forwarding. -/
def emojiTransform (emoji message : String) : String :=
  emoji ++ " " ++ message

/-- The console line printed by `SimpleNotifier.send`
(src/06-decorator/code/Notifier.ts line 45), namely
`    [Send] ${message}`. -/
def simpleNotifierLine (message : String) : String :=
  "    [Send] " ++ message

/-- Default marker of `EmojiDecorator` (constructor parameter
`emoji: string = "🔔"`). -/
def defaultEmoji : String := "🔔"

/-- A notifier chain: the terminal `SimpleNotifier`, or one of the three
concrete decorators wrapping a successor chain. `EmojiDecorator` also
stores its configured marker string. Chains are built bottom-up by nested
construction and are immutable, exactly as in the source. -/
inductive Notifier where
  | SimpleNotifier : Notifier
  | TimestampDecorator (wrapped : Notifier) : Notifier
  | UrgentDecorator (wrapped : Notifier) : Notifier
  | EmojiDecorator (wrapped : Notifier) (emoji : String) : Notifier
deriving DecidableEq

/-- Embedding of `send`, returning the console line the terminal finally
prints. Each decorator computes its local transformation of the received
message and forwards the transformed message to its wrapped successor
(`this.wrapped.send(decorated)`); the terminal prints its line. -/
def send (now : String) : Notifier → String → String
  | .SimpleNotifier, message => simpleNotifierLine message
  | .TimestampDecorator w, message => send now w (timestampTransform now message)
  | .UrgentDecorator w, message => send now w (urgentTransform message)
  | .EmojiDecorator w emoji, message => send now w (emojiTransform emoji message)

/-- Embedding of `getDescription`: the terminal returns its fixed label,
each decorator wraps the successor description in its own class name. The
`EmojiDecorator` marker string is not consulted. -/
def getDescription : Notifier → String
  | .SimpleNotifier => "SimpleNotifier"
  | .TimestampDecorator w => "TimestampDecorator(" ++ getDescription w ++ ")"
  | .UrgentDecorator w => "UrgentDecorator(" ++ getDescription w ++ ")"
  | .EmojiDecorator w _ => "EmojiDecorator(" ++ getDescription w ++ ")"

/-- The message string that actually reaches `SimpleNotifier.send` after
all decorators of the chain have applied their transformations, outermost
first. -/
def terminalPayload (now : String) : Notifier → String → String
  | .SimpleNotifier, message => message
  | .TimestampDecorator w, message => terminalPayload now w (timestampTransform now message)
  | .UrgentDecorator w, message => terminalPayload now w (urgentTransform message)
  | .EmojiDecorator w emoji, message => terminalPayload now w (emojiTransform emoji message)

/-- Embedding of `send` against a fallible output sink: the terminal hands its console
line to the sink (which may fail, e.g. the sink is unavailable); the
decorators transform and forward exactly as in `send`, with no catch,
retry or alteration anywhere, mirroring the absence of any try/catch in
the source. -/
def sendSink {ε : Type} (sink : String → Except ε Unit) (now : String) :
    Notifier → String → Except ε Unit
  | .SimpleNotifier, message => sink (simpleNotifierLine message)
  | .TimestampDecorator w, message => sendSink sink now w (timestampTransform now message)
  | .UrgentDecorator w, message => sendSink sink now w (urgentTransform message)
  | .EmojiDecorator w emoji, message => sendSink sink now w (emojiTransform emoji message)

/-- JavaScript runtime error raised when a method of `undefined` is
invoked. -/
inductive JsError where
  | typeError (message : String) : JsError
deriving DecidableEq

/-- The runtime error raised the first time `this.wrapped.send` is invoked
on a decorator whose stored successor is the JavaScript value undefined. -/
def undefinedSendError : JsError :=
  .typeError "Cannot read properties of undefined (reading 'send')"

/-- Runtime model of chains in which a decorator may have been built with
a missing (undefined) successor, as is possible at the JavaScript level:
the stored successor is optional. -/
inductive RtNotifier where
  | SimpleNotifier : RtNotifier
  | TimestampDecorator (wrapped : Option RtNotifier) : RtNotifier
  | UrgentDecorator (wrapped : Option RtNotifier) : RtNotifier
  | EmojiDecorator (wrapped : Option RtNotifier) (emoji : String) : RtNotifier

/-- The `NotifierDecorator` constructor as executed for a
`TimestampDecorator` (src/06-decorator/code/Notifier.ts line 68):
`constructor(protected wrapped: Notifier) {}` — the body only stores the
argument and contains no validation and no throw, so construction always
returns the built object, even for a missing successor. -/
def TimestampDecorator.construct (wrapped : Option RtNotifier) : Except JsError RtNotifier :=
  .ok (.TimestampDecorator wrapped)

/-- The `NotifierDecorator` constructor as executed for an
`UrgentDecorator`: stores the argument, no validation, no throw. -/
def UrgentDecorator.construct (wrapped : Option RtNotifier) : Except JsError RtNotifier :=
  .ok (.UrgentDecorator wrapped)

/-- The `EmojiDecorator` constructor: calls `super(wrapped)` and stores the
marker; neither step validates the successor or throws. -/
def EmojiDecorator.construct (wrapped : Option RtNotifier) (emoji : String) :
    Except JsError RtNotifier :=
  .ok (.EmojiDecorator wrapped emoji)

/-- Runtime `send` over the runtime model: a decorator whose stored
successor is undefined raises the JavaScript type error at the moment it
evaluates `this.wrapped.send(decorated)`; otherwise behavior is as in
`send` (the console sink itself is assumed available). -/
def rtSend (now : String) : RtNotifier → String → Except JsError Unit
  | .SimpleNotifier, _ => .ok ()
  | .TimestampDecorator none, _ => .error undefinedSendError
  | .TimestampDecorator (some w), message => rtSend now w (timestampTransform now message)
  | .UrgentDecorator none, _ => .error undefinedSendError
  | .UrgentDecorator (some w), message => rtSend now w (urgentTransform message)
  | .EmojiDecorator none _, _ => .error undefinedSendError
  | .EmojiDecorator (some w) emoji, message => rtSend now w (emojiTransform emoji message)

/-- A concrete clock reading in the format produced by
`toLocaleString("en-US", ...)` with 2-digit fields and `hour12: false`. -/
def sampleNow : String := "01/15/2024, 10:30:00"

/-- The chain of DEMO 4 Order A in src/decorator/code/main.ts:
`new UrgentDecorator(new TimestampDecorator(new SimpleNotifier()))`
(Urgency outermost). -/
def urgentOverTimestamp : Notifier :=
  .UrgentDecorator (.TimestampDecorator .SimpleNotifier)

/-- The chain of DEMO 4 Order B in src/decorator/code/main.ts:
`new TimestampDecorator(new UrgentDecorator(new SimpleNotifier()))`
(Timestamp outermost). -/
def timestampOverUrgent : Notifier :=
  .TimestampDecorator (.UrgentDecorator .SimpleNotifier)

/-- The chain of DEMO 5 in src/decorator/code/main.ts: an outer
`EmojiDecorator` with marker "⚡" wrapping an inner `EmojiDecorator` with
marker "🔔" around the terminal. -/
def doubleEmoji : Notifier :=
  .EmojiDecorator (.EmojiDecorator .SimpleNotifier "🔔") "⚡"

/-- The console line emitted by the DEMO 5 chain on the demo payload. -/
def demo5Line : String := send sampleNow doubleEmoji "New user signed up."

/- Helper lemmas shared by the claim theorems. -/

theorem string_ne_of_data_ne {s t : String} (h : s.data ≠ t.data) : s ≠ t :=
  fun he => h (congrArg String.data he)

theorem ne_after_common {l : List Char} {a b : Char} {r1 r2 : List Char}
    (h : a ≠ b) : l ++ a :: r1 ≠ l ++ b :: r2 := by
  intro he
  exact h (List.cons.inj (List.append_cancel_left he)).1

theorem send_eq_line_of_terminalPayload (now : String) (c : Notifier) (m : String) :
    send now c m = simpleNotifierLine (terminalPayload now c m) := by
  induction c generalizing m with
  | SimpleNotifier => rfl
  | TimestampDecorator w ih => exact ih (timestampTransform now m)
  | UrgentDecorator w ih => exact ih (urgentTransform m)
  | EmojiDecorator w emoji ih => exact ih (emojiTransform emoji m)

/-- C1 counterexample: with Urgency outermost over Timestamp, sending
"Server is running." makes the terminal emit the timestamp segment first,
in its original (non-capitalized) form, followed by the URGENT marker and
the upper-cased message — not the claimed string
"URGENT: [01/15/2024, 10:30:00] SERVER IS RUNNING." in which the URGENT
marker comes first. -/
theorem C1_counterexample :
    send sampleNow urgentOverTimestamp "Server is running."
        = "    [Send] [01/15/2024, 10:30:00] URGENT: SERVER IS RUNNING."
      ∧ terminalPayload sampleNow urgentOverTimestamp "Server is running."
        = "[01/15/2024, 10:30:00] URGENT: SERVER IS RUNNING."
      ∧ terminalPayload sampleNow urgentOverTimestamp "Server is running."
        ≠ "URGENT: [01/15/2024, 10:30:00] SERVER IS RUNNING."
      ∧ send sampleNow urgentOverTimestamp "Server is running."
        ≠ "URGENT: [01/15/2024, 10:30:00] SERVER IS RUNNING." :=
  ⟨rfl, rfl, by decide, by decide⟩

/-- C1 (amended): for the chain with the Urgency wrapper outermost over the
Timestamp wrapper, sending "Server is running." makes the terminal emit
(with its fixed "    [Send] " log framing) the string
"[<now>] URGENT: SERVER IS RUNNING.": the outermost Urgency wrapper
transforms first, so the timestamp segment is prepended afterwards by the
inner wrapper, lands leftmost, and is not itself upper-cased. -/
theorem C1_amended_urgent_outermost (now : String) :
    send now urgentOverTimestamp "Server is running."
      = "    [Send] " ++ "[" ++ now ++ "] " ++ "URGENT: " ++ "SERVER IS RUNNING." := by
  show "    [Send] " ++ ("[" ++ now ++ "] " ++ ("URGENT: " ++ toUpperCase "Server is running."))
      = "    [Send] " ++ "[" ++ now ++ "] " ++ "URGENT: " ++ "SERVER IS RUNNING."
  simp only [String.append_assoc]
  rfl

/-- C2 counterexample: on payload "Deploy failed." with the sample clock
reading, the Urgency-outermost chain delivers
"[01/15/2024, 10:30:00] URGENT: DEPLOY FAILED." to the terminal — not the
claimed upper-cased-timestamp form obtained by uppercasing the stamped
message — and the Timestamp-outermost chain delivers
"URGENT: [01/15/2024, 10:30:00] DEPLOY FAILED." — not the claimed form in
which a human-readable timestamp stands before the URGENT marker. The
attribution of the two shapes to the two orders in the claim is exactly
swapped. -/
theorem C2_counterexample :
    terminalPayload sampleNow urgentOverTimestamp "Deploy failed."
        = "[01/15/2024, 10:30:00] URGENT: DEPLOY FAILED."
      ∧ terminalPayload sampleNow urgentOverTimestamp "Deploy failed."
        ≠ "URGENT: " ++ toUpperCase ("[" ++ sampleNow ++ "] " ++ "Deploy failed.")
      ∧ terminalPayload sampleNow timestampOverUrgent "Deploy failed."
        = "URGENT: [01/15/2024, 10:30:00] DEPLOY FAILED."
      ∧ terminalPayload sampleNow timestampOverUrgent "Deploy failed."
        ≠ "[" ++ sampleNow ++ "] " ++ ("URGENT: " ++ toUpperCase "Deploy failed.") :=
  ⟨rfl, by decide, rfl, by decide⟩

/-- C2 (amended): for every payload and every clock reading the two orders
emit two different final strings, but with the transformation algebra
mirrored with respect to the claim: the Urgency-outermost chain emits
"[<now>] URGENT: <payload upper-cased>" (timestamp prepended last, leftmost
and outside the upper-cased region), while the Timestamp-outermost chain
emits "URGENT: " followed by the upper-casing of the already-stamped
message (the timestamp segment lies inside the upper-cased region). -/
theorem C2_amended_orders (now m : String) :
    send now urgentOverTimestamp m
        = "    [Send] " ++ "[" ++ now ++ "] " ++ "URGENT: " ++ toUpperCase m
      ∧ send now timestampOverUrgent m
        = "    [Send] " ++ "URGENT: " ++ toUpperCase ("[" ++ now ++ "] " ++ m)
      ∧ send now urgentOverTimestamp m ≠ send now timestampOverUrgent m := by
  refine ⟨?_, ?_, ?_⟩
  · show "    [Send] " ++ ("[" ++ now ++ "] " ++ ("URGENT: " ++ toUpperCase m))
        = "    [Send] " ++ "[" ++ now ++ "] " ++ "URGENT: " ++ toUpperCase m
    simp only [String.append_assoc]
  · show "    [Send] " ++ ("URGENT: " ++ toUpperCase ("[" ++ now ++ "] " ++ m))
        = "    [Send] " ++ "URGENT: " ++ toUpperCase ("[" ++ now ++ "] " ++ m)
    simp only [String.append_assoc]
  · apply string_ne_of_data_ne
    show ("    [Send] " ++ ("[" ++ now ++ "] " ++ ("URGENT: " ++ toUpperCase m))).data
        ≠ ("    [Send] " ++ ("URGENT: " ++ toUpperCase ("[" ++ now ++ "] " ++ m))).data
    simp only [String.data_append, List.append_assoc]
    show "    [Send] ".data
          ++ ("[".data ++ (now.data ++ ("] ".data ++ ("URGENT: ".data ++ (toUpperCase m).data))))
        ≠ "    [Send] ".data
          ++ ("URGENT: ".data ++ (toUpperCase ("[" ++ now ++ "] " ++ m)).data)
    have h3 : ("[" : String).data
          ++ (now.data ++ ("] ".data ++ ("URGENT: ".data ++ (toUpperCase m).data)))
        = '[' :: (now.data ++ ("] ".data ++ ("URGENT: ".data ++ (toUpperCase m).data))) := rfl
    have h4 : ("URGENT: " : String).data ++ (toUpperCase ("[" ++ now ++ "] " ++ m)).data
        = 'U' :: ("RGENT: ".data ++ (toUpperCase ("[" ++ now ++ "] " ++ m)).data) := rfl
    rw [h3, h4]
    exact ne_after_common (by decide)

/-- C3 counterexample: building a `TimestampDecorator` with a missing
successor succeeds (the constructor stores the argument and raises no
error), and the failure only appears at the first `send` call, as the
runtime type error for invoking `send` on undefined — so the failure is
deferred to `send` time, contrary to the claim. -/
theorem C3_counterexample :
    TimestampDecorator.construct none = Except.ok (RtNotifier.TimestampDecorator none)
      ∧ rtSend sampleNow (RtNotifier.TimestampDecorator none) "Server is running."
        = Except.error undefinedSendError :=
  ⟨rfl, rfl⟩

/-- C3 (amended): constructing any of the three wrappers without a valid
successor never fails at construction time — the shared constructor stores
the argument without validation — and the missing successor instead causes
a runtime type error at the first `send` call, for every clock reading and
every payload. -/
theorem C3_amended_deferred_failure (now m : String) :
    (TimestampDecorator.construct none = Except.ok (RtNotifier.TimestampDecorator none)
        ∧ rtSend now (RtNotifier.TimestampDecorator none) m = Except.error undefinedSendError)
      ∧ (UrgentDecorator.construct none = Except.ok (RtNotifier.UrgentDecorator none)
        ∧ rtSend now (RtNotifier.UrgentDecorator none) m = Except.error undefinedSendError)
      ∧ (∀ e : String,
          EmojiDecorator.construct none e = Except.ok (RtNotifier.EmojiDecorator none e)
        ∧ rtSend now (RtNotifier.EmojiDecorator none e) m = Except.error undefinedSendError) :=
  ⟨⟨rfl, rfl⟩, ⟨rfl, rfl⟩, fun _ => ⟨rfl, rfl⟩⟩

/-- C4 counterexample: the terminal alone on payload "Server is running."
emits "    [Send] Server is running.", which is not the payload itself,
and the Timestamp-only chain emits a line that is not the bare
"[<timestamp>] Server is running." either — the fixed "    [Send] " log
framing of `SimpleNotifier.send` is always present. -/
theorem C4_counterexample :
    send sampleNow Notifier.SimpleNotifier "Server is running."
        = "    [Send] Server is running."
      ∧ send sampleNow Notifier.SimpleNotifier "Server is running."
        ≠ "Server is running."
      ∧ send sampleNow (Notifier.TimestampDecorator Notifier.SimpleNotifier) "Server is running."
        ≠ "[" ++ sampleNow ++ "] " ++ "Server is running." :=
  ⟨rfl, by decide, by decide⟩

/-- C4 (amended): for every payload m, the chain with zero wrappers emits
exactly "    [Send] " followed by m (the payload is delivered verbatim to
the terminal, which prints it inside its fixed log framing), and the
Timestamp-only chain on "Server is running." emits
"    [Send] [<now>] Server is running." — the only framing beyond the
stamped payload is that same fixed "    [Send] " prefix. -/
theorem C4_amended_terminal_framing (now m : String) :
    send now Notifier.SimpleNotifier m = "    [Send] " ++ m
      ∧ send now (Notifier.TimestampDecorator Notifier.SimpleNotifier) "Server is running."
        = "    [Send] " ++ "[" ++ now ++ "] " ++ "Server is running." := by
  refine ⟨rfl, ?_⟩
  show "    [Send] " ++ ("[" ++ now ++ "] " ++ "Server is running.")
      = "    [Send] " ++ "[" ++ now ++ "] " ++ "Server is running."
  simp only [String.append_assoc]

/-- C5: `send` is deterministic across calls — two runs on the same chain,
the same clock reading and the same payload produce the same emitted
console line. -/
theorem C5_send_deterministic (c c' : Notifier) (now now' m m' : String)
    (hc : c = c') (hn : now = now') (hm : m = m') :
    send now c m = send now' c' m' := by
  subst hc; subst hn; subst hm; rfl

/-- C5 witness: two runs on the Timestamp-over-terminal chain with equal
inputs yield equal output lines. -/
theorem C5_send_deterministic_witness :
    send sampleNow (Notifier.TimestampDecorator Notifier.SimpleNotifier) "Deploy failed."
      = send sampleNow (Notifier.TimestampDecorator Notifier.SimpleNotifier) "Deploy failed." :=
  C5_send_deterministic (Notifier.TimestampDecorator Notifier.SimpleNotifier)
    (Notifier.TimestampDecorator Notifier.SimpleNotifier)
    sampleNow sampleNow "Deploy failed." "Deploy failed." rfl rfl rfl

/-- C6 counterexample: stacking an outer `EmojiDecorator` marked "⚡" over
an inner one marked "🔔" on payload "New user signed up." emits
"    [Send] 🔔 ⚡ New user signed up.": both markers appear, but the
outermost marker "⚡" is not leftmost — the inner marker "🔔" precedes it. -/
theorem C6_counterexample :
    demo5Line = "    [Send] 🔔 ⚡ New user signed up."
      ∧ '⚡' ∈ demo5Line.data
      ∧ '🔔' ∈ demo5Line.data
      ∧ ¬ (demo5Line.data.indexOf '⚡' < demo5Line.data.indexOf '🔔') :=
  ⟨rfl, by decide, by decide, by decide⟩

/-- C6 (amended): when two `EmojiDecorator` links with different markers are
stacked, both markers appear in the final emitted string, and it is the
innermost marker that appears first (leftmost): for every payload the
outer-"⚡"-over-inner-"🔔" chain emits "    [Send] 🔔 ⚡ " followed by the
payload, and on the demo payload the index of "🔔" is strictly below the
index of "⚡". -/
theorem C6_amended_inner_marker_first (now m : String) :
    send now doubleEmoji m = "    [Send] " ++ "🔔 " ++ "⚡ " ++ m
      ∧ '⚡' ∈ demo5Line.data
      ∧ '🔔' ∈ demo5Line.data
      ∧ demo5Line.data.indexOf '🔔' < demo5Line.data.indexOf '⚡' := by
  refine ⟨?_, by decide, by decide, by decide⟩
  show "    [Send] " ++ ("🔔" ++ " " ++ ("⚡" ++ " " ++ m))
      = "    [Send] " ++ "🔔 " ++ "⚡ " ++ m
  simp only [String.append_assoc]
  rfl

/-- C7: `getDescription` of a chain is the left-to-right nesting of each
link label around the successor description: the terminal returns its
fixed label "SimpleNotifier" as the base case, each wrapper wraps the
successor description in its own class name, and the concrete chain
UrgentDecorator over TimestampDecorator over SimpleNotifier describes
itself as "UrgentDecorator(TimestampDecorator(SimpleNotifier))". -/
theorem C7_describe_nesting :
    getDescription urgentOverTimestamp
        = "UrgentDecorator(TimestampDecorator(SimpleNotifier))"
      ∧ getDescription Notifier.SimpleNotifier = "SimpleNotifier"
      ∧ (∀ w : Notifier, getDescription (Notifier.TimestampDecorator w)
          = "TimestampDecorator(" ++ getDescription w ++ ")")
      ∧ (∀ w : Notifier, getDescription (Notifier.UrgentDecorator w)
          = "UrgentDecorator(" ++ getDescription w ++ ")")
      ∧ (∀ (w : Notifier) (e : String), getDescription (Notifier.EmojiDecorator w e)
          = "EmojiDecorator(" ++ getDescription w ++ ")") :=
  ⟨rfl, rfl, fun _ => rfl, fun _ => rfl, fun _ _ => rfl⟩

/-- C8: transformations are applied outside-in at call time — for every
chain, every clock reading and every payload, each wrapper first computes
its own transformation of the received payload and hands the transformed
payload to its successor, the terminal prints the line for exactly the
payload it receives, and the whole chain therefore emits the terminal line
for the fully transformed payload (the effect of the terminal happens
last, on the fully transformed string). -/
theorem C8_outside_in (w : Notifier) (now m : String) :
    send now (Notifier.TimestampDecorator w) m = send now w (timestampTransform now m)
      ∧ send now (Notifier.UrgentDecorator w) m = send now w (urgentTransform m)
      ∧ (∀ e : String,
          send now (Notifier.EmojiDecorator w e) m = send now w (emojiTransform e m))
      ∧ send now Notifier.SimpleNotifier m = simpleNotifierLine m
      ∧ (∀ c : Notifier, send now c m = simpleNotifierLine (terminalPayload now c m)) :=
  ⟨rfl, rfl, fun _ => rfl, rfl, fun c => send_eq_line_of_terminalPayload now c m⟩

/-- C9: if the output sink of the terminal fails, the failure propagates
synchronously back through every wrapper unchanged — the result of `send`
on any chain is exactly the result of the sink on the final terminal line,
so the caller sees either a completed call or precisely the error the
terminal raised; in particular, whenever the sink answers a given error on
the terminal line, the whole chained call answers that same error. -/
theorem C9_terminal_failure_propagates {ε : Type} (sink : String → Except ε Unit)
    (now m : String) (c : Notifier) :
    sendSink sink now c m = sink (simpleNotifierLine (terminalPayload now c m))
      ∧ (∀ e : ε, sink (simpleNotifierLine (terminalPayload now c m)) = Except.error e
          → sendSink sink now c m = Except.error e) := by
  have key : sendSink sink now c m = sink (simpleNotifierLine (terminalPayload now c m)) := by
    induction c generalizing m with
    | SimpleNotifier => rfl
    | TimestampDecorator w ih => exact ih (timestampTransform now m)
    | UrgentDecorator w ih => exact ih (urgentTransform m)
    | EmojiDecorator w emoji ih => exact ih (emojiTransform emoji m)
  exact ⟨key, fun e he => key.trans he⟩

/-- C9 witness: with a sink that reports an unavailable output device, the
three-link chain propagates exactly that error to the caller. -/
theorem C9_terminal_failure_propagates_witness :
    sendSink (fun _ => (Except.error "sink unavailable" : Except String Unit))
        sampleNow urgentOverTimestamp "Deploy failed."
      = Except.error "sink unavailable" :=
  (C9_terminal_failure_propagates (fun _ => (Except.error "sink unavailable" : Except String Unit))
    sampleNow "Deploy failed." urgentOverTimestamp).2 "sink unavailable" rfl

/-- C10: `getDescription` reveals only the sequence of link types, not
their configuration — two chains that differ only in the marker string of
an `EmojiDecorator` (for instance "⚡" versus the default "🔔") return the
identical description string, for every wrapped successor chain. -/
theorem C10_description_ignores_marker (w : Notifier) (e1 e2 : String) :
    getDescription (Notifier.EmojiDecorator w e1)
        = getDescription (Notifier.EmojiDecorator w e2)
      ∧ getDescription (Notifier.EmojiDecorator Notifier.SimpleNotifier "⚡")
        = getDescription (Notifier.EmojiDecorator Notifier.SimpleNotifier defaultEmoji) :=
  ⟨rfl, rfl⟩

end DecoratorChain
